import Mathlib

/-!
# Verification of the Vulkan swapchain frame-lifecycle manager

Shallow embedding of `flutter/vulkan/vulkan_swapchain.cc` (class
`vulkan::VulkanSwapchain`): chain negotiation (the constructor together with
`CreateSwapchainImages`), backbuffer-slot selection (`GetNextBackbuffer`),
frame acquisition (`AcquireSurface`) and presentation (`Submit`).

External collaborators (the Vulkan driver, `VulkanDevice`, `VulkanBackbuffer`,
Skia) are modelled as environments supplying the result of each outgoing call,
and the embedded operations additionally record a trace of the calls they
issue, so that call-order and call-argument properties can be stated.
-/

namespace Vulkan

/-! ## VkResult codes used by the source -/

def VK_SUCCESS : Int := 0

def VK_ERROR_SURFACE_LOST_KHR : Int := -1000000000

def VK_ERROR_OUT_OF_DATE_KHR : Int := -1000001004

/-! ## Basic enumerations -/

/-- The present modes relevant to the source (`VkPresentModeKHR`). -/
inductive VkPresentModeKHR : Type
  | immediate
  | mailbox
  | fifo
  | fifoRelaxed
deriving DecidableEq, Repr

/-- `VK_PRESENT_MODE_FIFO_KHR`, the blocking FIFO present mode. -/
def VK_PRESENT_MODE_FIFO_KHR : VkPresentModeKHR := .fifo

/-- The pipeline stages the source mentions (`VkPipelineStageFlagBits`). -/
inductive VkPipelineStageFlagBits : Type
  | topOfPipe
  | colorAttachmentOutput
  | bottomOfPipe
deriving DecidableEq, Repr

/-- A backbuffer slot owns a usage pair and a render pair of
semaphore/fence/command buffer; we tag each primitive with its slot index and
which of the two pairs it belongs to. -/
inductive SyncKind : Type
  | usage
  | render
deriving DecidableEq, Repr

structure VkSemaphore where
  slot : Nat
  kind : SyncKind
deriving DecidableEq, Repr

structure VkFence where
  slot : Nat
  kind : SyncKind
deriving DecidableEq, Repr

structure VkCommandBuffer where
  slot : Nat
  kind : SyncKind
deriving DecidableEq, Repr

/-- The state of one `VulkanBackbuffer` slot as seen by the swapchain:
its ring position (naming its semaphores/fences) and its `IsValid()` bit. -/
structure VulkanBackbuffer where
  index : Nat
  ok : Bool
deriving DecidableEq, Repr

/-- The state of one `VulkanImage` wrapper as seen by the swapchain. -/
structure VulkanImage where
  ok : Bool
deriving DecidableEq, Repr

/-- `AcquireStatus` from `vulkan_swapchain.h`. -/
inductive AcquireStatus : Type
  | Success
  | ErrorSurfaceLost
  | ErrorSurfaceOutOfDate
deriving DecidableEq, Repr

/-- `AcquireResult`: the status together with the returned render target,
identified by the image index whose `surfaces_` entry is handed back
(`none` models the `nullptr` surface of the error results). -/
structure AcquireResult where
  status : AcquireStatus
  surface : Option Nat
deriving DecidableEq, Repr

/-! ## Swapchain state

Mutable fields of `VulkanSwapchain` that the embedded operations read or
write.  `surfaces_` stores, per image, whether the stored `sk_sp<SkSurface>`
is non-null. -/

structure VulkanSwapchain where
  current_pipeline_stage_ : VkPipelineStageFlagBits
  current_backbuffer_index_ : Nat
  current_image_index_ : Nat
  valid_ : Bool
  backbuffers_ : List VulkanBackbuffer
  images_ : List VulkanImage
  surfaces_ : List Bool
deriving DecidableEq, Repr

/-! ## Trace events

One event per outgoing call whose order or arguments the spec constrains. -/

inductive Event : Type
  | waitFences (slot : Nat) (ok : Bool)
  | resetFences (slot : Nat) (ok : Bool)
  | acquireNextImage (signal_semaphore : VkSemaphore) (result : Int)
      (image_index : Nat)
  | beginCommandBuffer (buf : VkCommandBuffer) (ok : Bool)
  | imageMemoryBarrier (buf : VkCommandBuffer)
      (src_stage dst_stage : VkPipelineStageFlagBits) (ok : Bool)
  | endCommandBuffer (buf : VkCommandBuffer) (ok : Bool)
  | queueSubmit (wait_semaphores signal_semaphores : List VkSemaphore)
      (command_buffers : List VkCommandBuffer) (fence : VkFence) (ok : Bool)
  | queuePresent (wait_semaphores : List VkSemaphore)
      (image_indices : List Nat) (result : Int)
deriving DecidableEq, Repr

namespace Event

def isResetFences : Event → Bool
  | .resetFences _ _ => true
  | _ => false

def isWaitFences : Event → Bool
  | .waitFences _ _ => true
  | _ => false

def isQueuePresent : Event → Bool
  | .queuePresent _ _ _ => true
  | _ => false

end Event

/-! ## GetNextBackbuffer -/

/-- `VulkanSwapchain::GetNextBackbuffer` (vulkan_swapchain.cc:268).
Returns the selected slot index and the updated state, or `none` when the
source returns `nullptr`.  The round-robin counter is advanced only when the
selected backbuffer is valid. -/
def GetNextBackbuffer (sc : VulkanSwapchain) :
    Option (Nat × VulkanSwapchain) :=
  if sc.backbuffers_.length = 0 then
    none
  else if ! (sc.backbuffers_.getD
      ((sc.current_backbuffer_index_ + 1) % sc.backbuffers_.length)
      ⟨0, false⟩).ok then
    none
  else
    some ((sc.current_backbuffer_index_ + 1) % sc.backbuffers_.length,
      { sc with current_backbuffer_index_ :=
          (sc.current_backbuffer_index_ + 1) % sc.backbuffers_.length })

/-! ## AcquireSurface -/

/-- Results of the external calls that one `AcquireSurface` run can make,
one field per call site. -/
structure AcquireEnv where
  wait_fences_ok : Bool
  reset_fences_ok : Bool
  acquire_result : Int
  next_image_index : Nat
  begin_ok : Bool
  barrier_ok : Bool
  end_ok : Bool
  queue_submit_ok : Bool
  get_rt_handle_ok : Bool
deriving DecidableEq, Repr

/-- Outcome of an embedded `AcquireSurface` / `Submit` run: the state after
the call and the trace of external calls issued, plus the return value. -/
structure AcquireOut where
  state : VulkanSwapchain
  result : AcquireResult
  trace : List Event
deriving DecidableEq, Repr

/-- The error result built at the top of `AcquireSurface`
(`{AcquireStatus::ErrorSurfaceLost, nullptr}`). -/
def acquireError : AcquireResult := ⟨.ErrorSurfaceLost, none⟩

/-- Steps 4–8 of `VulkanSwapchain::AcquireSurface`
(vulkan_swapchain.cc:368-446): record the layout transition into the slot's
usage command buffer, submit it to the device queue waiting on the slot's
usage semaphore and signalling the slot's usage fence, then publish the new
layout to Skia and record the acquired index as current.  Run once the
acquired image index has been validated; the trace starts at the `Begin`
call on the usage command buffer. -/
def acquireRecordAndSubmit (sc : VulkanSwapchain) (slot : Nat)
    (env : AcquireEnv) : AcquireOut :=
  if ! env.begin_ok then
    ⟨sc, acquireError, [.beginCommandBuffer ⟨slot, .usage⟩ false]⟩
  else if ! env.barrier_ok then
    ⟨sc, acquireError,
      [.beginCommandBuffer ⟨slot, .usage⟩ true,
       .imageMemoryBarrier ⟨slot, .usage⟩ sc.current_pipeline_stage_
         .colorAttachmentOutput false]⟩
  -- from here on the barrier succeeded, so current_pipeline_stage_ is updated
  else if ! env.end_ok then
    ⟨{ sc with current_pipeline_stage_ := .colorAttachmentOutput },
      acquireError,
      [.beginCommandBuffer ⟨slot, .usage⟩ true,
       .imageMemoryBarrier ⟨slot, .usage⟩ sc.current_pipeline_stage_
         .colorAttachmentOutput true,
       .endCommandBuffer ⟨slot, .usage⟩ false]⟩
  else if ! env.queue_submit_ok then
    ⟨{ sc with current_pipeline_stage_ := .colorAttachmentOutput },
      acquireError,
      [.beginCommandBuffer ⟨slot, .usage⟩ true,
       .imageMemoryBarrier ⟨slot, .usage⟩ sc.current_pipeline_stage_
         .colorAttachmentOutput true,
       .endCommandBuffer ⟨slot, .usage⟩ true,
       .queueSubmit [⟨slot, .usage⟩] [] [⟨slot, .usage⟩] ⟨slot, .usage⟩
         env.queue_submit_ok]⟩
  else if ! sc.surfaces_.getD env.next_image_index false then
    ⟨{ sc with current_pipeline_stage_ := .colorAttachmentOutput },
      acquireError,
      [.beginCommandBuffer ⟨slot, .usage⟩ true,
       .imageMemoryBarrier ⟨slot, .usage⟩ sc.current_pipeline_stage_
         .colorAttachmentOutput true,
       .endCommandBuffer ⟨slot, .usage⟩ true,
       .queueSubmit [⟨slot, .usage⟩] [] [⟨slot, .usage⟩] ⟨slot, .usage⟩
         env.queue_submit_ok]⟩
  else if ! env.get_rt_handle_ok then
    ⟨{ sc with current_pipeline_stage_ := .colorAttachmentOutput },
      acquireError,
      [.beginCommandBuffer ⟨slot, .usage⟩ true,
       .imageMemoryBarrier ⟨slot, .usage⟩ sc.current_pipeline_stage_
         .colorAttachmentOutput true,
       .endCommandBuffer ⟨slot, .usage⟩ true,
       .queueSubmit [⟨slot, .usage⟩] [] [⟨slot, .usage⟩] ⟨slot, .usage⟩
         env.queue_submit_ok]⟩
  else
    ⟨{ sc with
         current_pipeline_stage_ :=
           VkPipelineStageFlagBits.colorAttachmentOutput,
         current_image_index_ := env.next_image_index },
      ⟨.Success, some env.next_image_index⟩,
      [.beginCommandBuffer ⟨slot, .usage⟩ true,
       .imageMemoryBarrier ⟨slot, .usage⟩ sc.current_pipeline_stage_
         .colorAttachmentOutput true,
       .endCommandBuffer ⟨slot, .usage⟩ true,
       .queueSubmit [⟨slot, .usage⟩] [] [⟨slot, .usage⟩] ⟨slot, .usage⟩
         env.queue_submit_ok]⟩

/-- Step 3 of `VulkanSwapchain::AcquireSurface` and the sanity checks on its
result (vulkan_swapchain.cc:329-362): the `AcquireNextImageKHR` call
signalling the slot's usage semaphore, the switch mapping its status, and
the range/validity checks on the returned image index; on success the
record-and-submit phase follows.  The trace starts at the
`AcquireNextImageKHR` call. -/
def acquireAfterReset (sc : VulkanSwapchain) (slot : Nat)
    (env : AcquireEnv) : AcquireOut :=
  if env.acquire_result = VK_ERROR_OUT_OF_DATE_KHR then
    ⟨sc, ⟨.ErrorSurfaceOutOfDate, none⟩,
      [.acquireNextImage ⟨slot, .usage⟩ env.acquire_result
        env.next_image_index]⟩
  else if env.acquire_result = VK_ERROR_SURFACE_LOST_KHR then
    ⟨sc, ⟨.ErrorSurfaceLost, none⟩,
      [.acquireNextImage ⟨slot, .usage⟩ env.acquire_result
        env.next_image_index]⟩
  else if env.acquire_result ≠ VK_SUCCESS then
    -- default branch of the switch: unexpected result
    ⟨sc, ⟨.ErrorSurfaceLost, none⟩,
      [.acquireNextImage ⟨slot, .usage⟩ env.acquire_result
        env.next_image_index]⟩
  else if sc.images_.length ≤ env.next_image_index then
    -- sanity check of the image index
    ⟨sc, acquireError,
      [.acquireNextImage ⟨slot, .usage⟩ env.acquire_result
        env.next_image_index]⟩
  else if ! (sc.images_.getD env.next_image_index ⟨false⟩).ok then
    ⟨sc, acquireError,
      [.acquireNextImage ⟨slot, .usage⟩ env.acquire_result
        env.next_image_index]⟩
  else
    ⟨(acquireRecordAndSubmit sc slot env).state,
      (acquireRecordAndSubmit sc slot env).result,
      .acquireNextImage ⟨slot, .usage⟩ env.acquire_result
          env.next_image_index ::
        (acquireRecordAndSubmit sc slot env).trace⟩

/-- Steps 1–2 of `VulkanSwapchain::AcquireSurface`
(vulkan_swapchain.cc:311-323): `WaitFences` then `ResetFences` on the
selected slot, then the rest of the protocol. -/
def acquireAfterSlot (sc : VulkanSwapchain) (slot : Nat)
    (env : AcquireEnv) : AcquireOut :=
  if ! env.wait_fences_ok then
    ⟨sc, acquireError, [.waitFences slot false]⟩
  else if ! env.reset_fences_ok then
    ⟨sc, acquireError, [.waitFences slot true, .resetFences slot false]⟩
  else
    ⟨(acquireAfterReset sc slot env).state,
      (acquireAfterReset sc slot env).result,
      .waitFences slot true :: .resetFences slot true ::
        (acquireAfterReset sc slot env).trace⟩

/-- `VulkanSwapchain::AcquireSurface` (vulkan_swapchain.cc:288). -/
def AcquireSurface (sc : VulkanSwapchain) (env : AcquireEnv) : AcquireOut :=
  if ! sc.valid_ then
    ⟨sc, acquireError, []⟩
  else
    match GetNextBackbuffer sc with
    | none => ⟨sc, acquireError, []⟩
    | some (slot, sc) => acquireAfterSlot sc slot env

/-! ## Submit -/

/-- Results of the external calls that one `Submit` run can make. -/
structure SubmitEnv where
  get_rt_handle_ok : Bool
  begin_ok : Bool
  barrier_ok : Bool
  end_ok : Bool
  queue_submit_ok : Bool
  present_result : Int
deriving DecidableEq, Repr

/-- Outcome of an embedded `Submit` run. -/
structure SubmitOut where
  state : VulkanSwapchain
  ok : Bool
  trace : List Event
deriving DecidableEq, Repr

/-- `VulkanSwapchain::Submit` (vulkan_swapchain.cc:449).  The slot is
`current_backbuffer_index_` (not advanced here) and the image index is
`current_image_index_`, both exactly as left by the last `AcquireSurface`. -/
def Submit (sc : VulkanSwapchain) (env : SubmitEnv) : SubmitOut :=
  if ! sc.valid_ then
    ⟨sc, false, []⟩
  else if ! env.get_rt_handle_ok then
    ⟨sc, false, []⟩
  else if ! env.begin_ok then
    ⟨sc, false,
      [.beginCommandBuffer ⟨sc.current_backbuffer_index_, .render⟩ false]⟩
  else if ! env.barrier_ok then
    ⟨sc, false,
      [.beginCommandBuffer ⟨sc.current_backbuffer_index_, .render⟩ true,
       .imageMemoryBarrier ⟨sc.current_backbuffer_index_, .render⟩
         sc.current_pipeline_stage_ .bottomOfPipe false]⟩
  -- from here on the barrier succeeded, so current_pipeline_stage_ is updated
  else if ! env.end_ok then
    ⟨{ sc with current_pipeline_stage_ := .bottomOfPipe }, false,
      [.beginCommandBuffer ⟨sc.current_backbuffer_index_, .render⟩ true,
       .imageMemoryBarrier ⟨sc.current_backbuffer_index_, .render⟩
         sc.current_pipeline_stage_ .bottomOfPipe true,
       .endCommandBuffer ⟨sc.current_backbuffer_index_, .render⟩ false]⟩
  else if ! env.queue_submit_ok then
    ⟨{ sc with current_pipeline_stage_ := .bottomOfPipe }, false,
      [.beginCommandBuffer ⟨sc.current_backbuffer_index_, .render⟩ true,
       .imageMemoryBarrier ⟨sc.current_backbuffer_index_, .render⟩
         sc.current_pipeline_stage_ .bottomOfPipe true,
       .endCommandBuffer ⟨sc.current_backbuffer_index_, .render⟩ true,
       .queueSubmit [] [⟨sc.current_backbuffer_index_, .render⟩]
         [⟨sc.current_backbuffer_index_, .render⟩]
         ⟨sc.current_backbuffer_index_, .render⟩ env.queue_submit_ok]⟩
  else if env.present_result ≠ VK_SUCCESS then
    ⟨{ sc with current_pipeline_stage_ := .bottomOfPipe }, false,
      [.beginCommandBuffer ⟨sc.current_backbuffer_index_, .render⟩ true,
       .imageMemoryBarrier ⟨sc.current_backbuffer_index_, .render⟩
         sc.current_pipeline_stage_ .bottomOfPipe true,
       .endCommandBuffer ⟨sc.current_backbuffer_index_, .render⟩ true,
       .queueSubmit [] [⟨sc.current_backbuffer_index_, .render⟩]
         [⟨sc.current_backbuffer_index_, .render⟩]
         ⟨sc.current_backbuffer_index_, .render⟩ env.queue_submit_ok,
       .queuePresent [⟨sc.current_backbuffer_index_, .render⟩]
         [sc.current_image_index_] env.present_result]⟩
  else
    ⟨{ sc with current_pipeline_stage_ := .bottomOfPipe }, true,
      [.beginCommandBuffer ⟨sc.current_backbuffer_index_, .render⟩ true,
       .imageMemoryBarrier ⟨sc.current_backbuffer_index_, .render⟩
         sc.current_pipeline_stage_ .bottomOfPipe true,
       .endCommandBuffer ⟨sc.current_backbuffer_index_, .render⟩ true,
       .queueSubmit [] [⟨sc.current_backbuffer_index_, .render⟩]
         [⟨sc.current_backbuffer_index_, .render⟩]
         ⟨sc.current_backbuffer_index_, .render⟩ env.queue_submit_ok,
       .queuePresent [⟨sc.current_backbuffer_index_, .render⟩]
         [sc.current_image_index_] env.present_result]⟩

/-! ## Chain negotiation (the constructor and `CreateSwapchainImages`) -/

/-- Outcomes of wrapping one platform image during `CreateSwapchainImages`:
the `IsValid()` of the freshly constructed `VulkanBackbuffer`, the
`IsValid()` of the `VulkanImage` wrapper, and whether `CreateSkiaSurface`
returned a non-null surface. -/
structure ImageEnv where
  backbuffer_ok : Bool
  image_ok : Bool
  surface_ok : Bool
deriving DecidableEq, Repr

/-- The loop body of `VulkanSwapchain::CreateSwapchainImages`
(vulkan_swapchain.cc:232-260): per image, construct and check a backbuffer,
an image wrapper, and a Skia surface, appending each to its vector before
moving on; the first failure aborts with the partial vectors kept. -/
def createImagesLoop : List ImageEnv → VulkanSwapchain →
    Bool × VulkanSwapchain
  | [], sc => (true, sc)
  | e :: rest, sc =>
    if ! e.backbuffer_ok then
      (false, sc)
    else if ! e.image_ok then
      (false, { sc with
        backbuffers_ := sc.backbuffers_ ++ [⟨sc.backbuffers_.length, true⟩] })
    else if ! e.surface_ok then
      (false, { sc with
        backbuffers_ := sc.backbuffers_ ++ [⟨sc.backbuffers_.length, true⟩],
        images_ := sc.images_ ++ [⟨true⟩] })
    else
      createImagesLoop rest { sc with
        backbuffers_ := sc.backbuffers_ ++ [⟨sc.backbuffers_.length, true⟩],
        images_ := sc.images_ ++ [⟨true⟩],
        surfaces_ := sc.surfaces_ ++ [true] }

/-- `VulkanSwapchain::CreateSwapchainImages` (vulkan_swapchain.cc:223):
fails when the platform returned zero images, otherwise wraps each image in
turn. -/
def CreateSwapchainImages (sc : VulkanSwapchain) (imgs : List ImageEnv) :
    Bool × VulkanSwapchain :=
  if imgs.length = 0 then
    (false, sc)
  else
    createImagesLoop imgs sc

/-- Modelled from the spec: `VulkanDevice::ChoosePresentMode` is declared in
`vulkan_device.h` but its definition is not under src/; per the spec,
"Choose present mode similarly [first-supported policy]; default to a
blocking (FIFO-equivalent) mode if the device offers no alternative".  So it
reports success with the first mode the device offers, or with
`VK_PRESENT_MODE_FIFO_KHR` when the device offers no alternative. -/
def ChoosePresentMode (offered : List VkPresentModeKHR) :
    Bool × VkPresentModeKHR :=
  match offered with
  | [] => (true, VK_PRESENT_MODE_FIFO_KHR)
  | m :: _ => (true, m)

/-- Results of the external calls made by the `VulkanSwapchain` constructor,
one field per call site. -/
structure CtorEnv where
  device_ok : Bool
  surface_ok : Bool
  skia_context_nonnull : Bool
  get_surface_capabilities_ok : Bool
  choose_surface_format_ok : Bool
  present_modes_offered : List VkPresentModeKHR
  surface_support_result : Int
  surface_supported : Bool
  create_swapchain_result : Int
  images : List ImageEnv
deriving DecidableEq, Repr

/-- Outcome of the embedded constructor: the constructed state, plus the
`presentMode` field of the `VkSwapchainCreateInfoKHR` passed to
`vkCreateSwapchainKHR` (`none` when the constructor bailed out before that
call). -/
structure CtorOut where
  state : VulkanSwapchain
  create_info_present_mode : Option VkPresentModeKHR
deriving DecidableEq, Repr

/-- The member-initializer state of the constructor
(vulkan_swapchain.cc:24-31): stage `TOP_OF_PIPE`, both indices 0, invalid,
empty vectors. -/
def initialSwapchain : VulkanSwapchain :=
  { current_pipeline_stage_ := .topOfPipe,
    current_backbuffer_index_ := 0,
    current_image_index_ := 0,
    valid_ := false,
    backbuffers_ := [],
    images_ := [],
    surfaces_ := [] }

/-- `VulkanSwapchain::VulkanSwapchain` (vulkan_swapchain.cc:18-124): the
sequence of validation steps, swapchain creation, image-chain population, and
the final `valid_ = true`. -/
def mkVulkanSwapchain (env : CtorEnv) : CtorOut :=
  if ! env.device_ok || ! env.surface_ok || ! env.skia_context_nonnull then
    ⟨initialSwapchain, none⟩
  else if ! env.get_surface_capabilities_ok then
    ⟨initialSwapchain, none⟩
  else if ! env.choose_surface_format_ok then
    ⟨initialSwapchain, none⟩
  else if ! (ChoosePresentMode env.present_modes_offered).1 then
    ⟨initialSwapchain, none⟩
  else if env.surface_support_result ≠ VK_SUCCESS then
    ⟨initialSwapchain, none⟩
  else if ! env.surface_supported then
    ⟨initialSwapchain, none⟩
  else if env.create_swapchain_result ≠ VK_SUCCESS then
    ⟨initialSwapchain, none⟩
  else if ! (CreateSwapchainImages initialSwapchain env.images).1 then
    ⟨(CreateSwapchainImages initialSwapchain env.images).2,
      some (ChoosePresentMode env.present_modes_offered).2⟩
  else
    ⟨{ (CreateSwapchainImages initialSwapchain env.images).2 with
        valid_ := true },
      some (ChoosePresentMode env.present_modes_offered).2⟩

/-! ## Helper lemmas

The embedded operations are analysed through "spec" predicates: each master
lemma states, as one conjunction applied to the single function call, every
fact the claims need, so that the if-tree of the function is split exactly
once. -/

/-- Shorthand for the slot index `GetNextBackbuffer` selects. -/
def nextSlot (sc : VulkanSwapchain) : Nat :=
  (sc.current_backbuffer_index_ + 1) % sc.backbuffers_.length

/-- `GetNextBackbuffer` either fails without touching the state, or selects
`nextSlot sc` and advances the ring counter to it. -/
theorem GetNextBackbuffer_cases (sc : VulkanSwapchain) :
    GetNextBackbuffer sc = none ∨
    GetNextBackbuffer sc =
      some (nextSlot sc,
        { sc with current_backbuffer_index_ := nextSlot sc }) := by
  unfold GetNextBackbuffer nextSlot
  split_ifs <;> simp

/-- `AcquireSurface` either fails up front with an empty trace and an
untouched state, or runs the post-selection protocol on the slot
`nextSlot sc`. -/
theorem AcquireSurface_cases (sc : VulkanSwapchain) (env : AcquireEnv) :
    AcquireSurface sc env = ⟨sc, acquireError, []⟩ ∨
    AcquireSurface sc env =
      acquireAfterSlot
        { sc with current_backbuffer_index_ := nextSlot sc }
        (nextSlot sc) env := by
  unfold AcquireSurface
  rcases GetNextBackbuffer_cases sc with h | h <;> rw [h] <;>
    split_ifs <;> simp

/-- Everything the claims need to know about one `acquireRecordAndSubmit`
run, stated over its output `o`. -/
def RecordSpec (sc : VulkanSwapchain) (slot : Nat) (env : AcquireEnv)
    (o : AcquireOut) : Prop :=
  o.state.current_backbuffer_index_ = sc.current_backbuffer_index_ ∧
  o.state.valid_ = sc.valid_ ∧
  o.state.backbuffers_ = sc.backbuffers_ ∧
  o.state.images_ = sc.images_ ∧
  o.state.surfaces_ = sc.surfaces_ ∧
  (o.result.status ≠ .Success →
    o.state.current_image_index_ = sc.current_image_index_ ∧
    o.result = acquireError) ∧
  (o.result.status = .Success →
    o.result = ⟨.Success, some env.next_image_index⟩ ∧
    o.state.current_image_index_ = env.next_image_index) ∧
  (∀ e ∈ o.trace, e.isResetFences = false ∧ e.isWaitFences = false) ∧
  (∀ ws ss cbs f ok, Event.queueSubmit ws ss cbs f ok ∈ o.trace →
    ws = [⟨slot, .usage⟩] ∧ ss = [] ∧ cbs = [⟨slot, .usage⟩] ∧
    f = ⟨slot, .usage⟩) ∧
  (env.begin_ok = true → env.barrier_ok = true → env.end_ok = true →
    env.queue_submit_ok = true →
    sc.surfaces_.getD env.next_image_index false = true →
    env.get_rt_handle_ok = true →
    o.result.status = .Success)

set_option maxHeartbeats 1600000 in
/-- Master lemma for the record-and-submit phase. -/
theorem acquireRecordAndSubmit_spec (sc : VulkanSwapchain) (slot : Nat)
    (env : AcquireEnv) :
    RecordSpec sc slot env (acquireRecordAndSubmit sc slot env) := by
  unfold acquireRecordAndSubmit
  split_ifs <;>
    simp_all [RecordSpec, acquireError,
      Event.isResetFences, Event.isWaitFences]

/-- Everything the claims need to know about one `acquireAfterReset` run. -/
def AfterResetSpec (sc : VulkanSwapchain) (slot : Nat) (env : AcquireEnv)
    (o : AcquireOut) : Prop :=
  o.state.current_backbuffer_index_ = sc.current_backbuffer_index_ ∧
  o.state.valid_ = sc.valid_ ∧
  o.state.backbuffers_ = sc.backbuffers_ ∧
  o.state.images_ = sc.images_ ∧
  o.state.surfaces_ = sc.surfaces_ ∧
  (o.result.status ≠ .Success →
    o.state.current_image_index_ = sc.current_image_index_) ∧
  (o.result.status = .Success →
    o.state.current_image_index_ = env.next_image_index ∧
    env.next_image_index < sc.images_.length) ∧
  (∀ e ∈ o.trace, e.isResetFences = false ∧ e.isWaitFences = false) ∧
  (∀ ws ss cbs f ok, Event.queueSubmit ws ss cbs f ok ∈ o.trace →
    ws = [⟨slot, .usage⟩] ∧ ss = [] ∧ cbs = [⟨slot, .usage⟩] ∧
    f = ⟨slot, .usage⟩) ∧
  (env.acquire_result = VK_ERROR_OUT_OF_DATE_KHR →
    o.result = ⟨.ErrorSurfaceOutOfDate, none⟩) ∧
  (env.acquire_result = VK_ERROR_SURFACE_LOST_KHR →
    o.result = ⟨.ErrorSurfaceLost, none⟩) ∧
  (env.acquire_result ≠ VK_SUCCESS →
    env.acquire_result ≠ VK_ERROR_OUT_OF_DATE_KHR →
    o.result = ⟨.ErrorSurfaceLost, none⟩) ∧
  (env.acquire_result = VK_SUCCESS →
    sc.images_.length ≤ env.next_image_index → o.result = acquireError) ∧
  (env.acquire_result = VK_SUCCESS →
    env.next_image_index < sc.images_.length →
    (sc.images_.getD env.next_image_index ⟨false⟩).ok = true →
    env.begin_ok = true → env.barrier_ok = true → env.end_ok = true →
    env.queue_submit_ok = true →
    sc.surfaces_.getD env.next_image_index false = true →
    env.get_rt_handle_ok = true →
    o.result.status = .Success)

set_option maxHeartbeats 1600000 in
/-- Master lemma for the post-`ResetFences` phase of `AcquireSurface`. -/
theorem acquireAfterReset_spec (sc : VulkanSwapchain) (slot : Nat)
    (env : AcquireEnv) :
    AfterResetSpec sc slot env (acquireAfterReset sc slot env) := by
  have hrec := acquireRecordAndSubmit_spec sc slot env
  unfold acquireAfterReset
  split_ifs with h1 h2 h3 h4 h5
  · simp_all [AfterResetSpec, acquireError,
      Event.isResetFences, Event.isWaitFences,
      VK_SUCCESS, VK_ERROR_OUT_OF_DATE_KHR, VK_ERROR_SURFACE_LOST_KHR]
  · simp_all [AfterResetSpec, acquireError,
      Event.isResetFences, Event.isWaitFences,
      VK_SUCCESS, VK_ERROR_OUT_OF_DATE_KHR, VK_ERROR_SURFACE_LOST_KHR]
  · simp_all [AfterResetSpec, acquireError,
      Event.isResetFences, Event.isWaitFences,
      VK_SUCCESS, VK_ERROR_OUT_OF_DATE_KHR, VK_ERROR_SURFACE_LOST_KHR]
  · simp_all [AfterResetSpec, acquireError,
      Event.isResetFences, Event.isWaitFences,
      VK_SUCCESS, VK_ERROR_OUT_OF_DATE_KHR, VK_ERROR_SURFACE_LOST_KHR]
  · simp_all [AfterResetSpec, acquireError,
      Event.isResetFences, Event.isWaitFences,
      VK_SUCCESS, VK_ERROR_OUT_OF_DATE_KHR, VK_ERROR_SURFACE_LOST_KHR]
  · obtain ⟨hc1, hc2, hc3, hc4, hc5, hfail, hsucc, hfence, hqs, hall⟩ := hrec
    refine ⟨hc1, hc2, hc3, hc4, hc5, ?_, ?_, ?_, ?_, ?_, ?_, ?_, ?_, ?_⟩
    · intro hs
      exact (hfail hs).1
    · intro hs
      exact ⟨(hsucc hs).2, by omega⟩
    · intro e he
      rcases List.mem_cons.mp he with rfl | he2
      · exact ⟨rfl, rfl⟩
      · exact hfence e he2
    · intro ws ss cbs f ok hmem
      rcases List.mem_cons.mp hmem with heq | hmem2
      · exact absurd heq (by simp)
      · exact hqs ws ss cbs f ok hmem2
    · intro h
      exact absurd h h1
    · intro h
      exact absurd h h2
    · intro h
      exact absurd (h3 ∘ fun hx => hx) (by simp_all)
    · intro _ h
      omega
    · intro _ _ himg hb hbar he hq hsurf hrt
      exact hall hb hbar he hq hsurf hrt

/-- Everything the claims need to know about one `acquireAfterSlot` run:
fence-call ordering, fence-failure behaviour, and the lifted facts of the
later phases. -/
def SlotSpec (sc : VulkanSwapchain) (slot : Nat) (env : AcquireEnv)
    (o : AcquireOut) : Prop :=
  o.state.current_backbuffer_index_ = sc.current_backbuffer_index_ ∧
  o.state.valid_ = sc.valid_ ∧
  o.state.backbuffers_ = sc.backbuffers_ ∧
  o.state.images_ = sc.images_ ∧
  o.state.surfaces_ = sc.surfaces_ ∧
  (o.result.status ≠ .Success →
    o.state.current_image_index_ = sc.current_image_index_) ∧
  (o.result.status = .Success →
    o.state.current_image_index_ = env.next_image_index ∧
    env.next_image_index < sc.images_.length) ∧
  (∀ s ok, Event.resetFences s ok ∈ o.trace →
    ∃ rest, o.trace =
      Event.waitFences s true :: Event.resetFences s ok :: rest) ∧
  (∀ s, Event.waitFences s false ∈ o.trace →
    o.result = acquireError ∧
    ∀ t ok, Event.resetFences t ok ∉ o.trace) ∧
  (env.wait_fences_ok = false →
    o.result = acquireError ∧ o.trace = [.waitFences slot false]) ∧
  (∀ ws ss cbs f ok, Event.queueSubmit ws ss cbs f ok ∈ o.trace →
    ws = [⟨slot, .usage⟩] ∧ ss = [] ∧ cbs = [⟨slot, .usage⟩] ∧
    f = ⟨slot, .usage⟩) ∧
  (env.acquire_result = VK_ERROR_OUT_OF_DATE_KHR →
    env.wait_fences_ok = true → env.reset_fences_ok = true →
    o.result = ⟨.ErrorSurfaceOutOfDate, none⟩) ∧
  (env.acquire_result = VK_ERROR_SURFACE_LOST_KHR →
    env.wait_fences_ok = true → env.reset_fences_ok = true →
    o.result = ⟨.ErrorSurfaceLost, none⟩) ∧
  (env.acquire_result ≠ VK_SUCCESS →
    env.acquire_result ≠ VK_ERROR_OUT_OF_DATE_KHR →
    env.wait_fences_ok = true → env.reset_fences_ok = true →
    o.result = ⟨.ErrorSurfaceLost, none⟩) ∧
  (env.acquire_result = VK_SUCCESS →
    sc.images_.length ≤ env.next_image_index →
    env.wait_fences_ok = true → env.reset_fences_ok = true →
    o.result = acquireError) ∧
  (env.wait_fences_ok = true → env.reset_fences_ok = true →
    env.acquire_result = VK_SUCCESS →
    env.next_image_index < sc.images_.length →
    (sc.images_.getD env.next_image_index ⟨false⟩).ok = true →
    env.begin_ok = true → env.barrier_ok = true → env.end_ok = true →
    env.queue_submit_ok = true →
    sc.surfaces_.getD env.next_image_index false = true →
    env.get_rt_handle_ok = true →
    o.result.status = .Success)

set_option maxHeartbeats 1600000 in
/-- Master lemma for the per-slot phase of `AcquireSurface`: `WaitFences`,
`ResetFences`, then the rest. -/
theorem acquireAfterSlot_spec (sc : VulkanSwapchain) (slot : Nat)
    (env : AcquireEnv) :
    SlotSpec sc slot env (acquireAfterSlot sc slot env) := by
  have har := acquireAfterReset_spec sc slot env
  obtain ⟨hc1, hc2, hc3, hc4, hc5, hfail, hsucc, hfence, hqs,
    hood, hsl, hother, hrange, hall⟩ := har
  have hnof := fun e he => hfence e he
  unfold acquireAfterSlot
  split_ifs with h1 h2
  · -- WaitFences failed
    refine ⟨rfl, rfl, rfl, rfl, rfl, fun _ => rfl, ?_, ?_, ?_, ?_, ?_,
      ?_, ?_, ?_, ?_, ?_⟩ <;>
      simp_all [acquireError]
  · -- ResetFences failed
    refine ⟨rfl, rfl, rfl, rfl, rfl, fun _ => rfl, ?_, ?_, ?_, ?_, ?_,
      ?_, ?_, ?_, ?_, ?_⟩ <;>
      simp_all [acquireError]
  · -- both fence calls succeeded
    simp only [Bool.not_eq_true] at h1 h2
    refine ⟨hc1, hc2, hc3, hc4, hc5, hfail, hsucc, ?_, ?_, ?_, ?_,
      ?_, ?_, ?_, ?_, ?_⟩
    · intro s ok hmem
      rcases List.mem_cons.mp hmem with heq | hmem2
      · exact absurd heq (by simp)
      rcases List.mem_cons.mp hmem2 with heq | hmem3
      · obtain ⟨rfl, rfl⟩ : s = slot ∧ ok = true := by
          simpa [eq_comm] using heq
        exact ⟨_, rfl⟩
      · have := (hnof _ hmem3).1
        simp [Event.isResetFences] at this
    · intro s hmem
      rcases List.mem_cons.mp hmem with heq | hmem2
      · simp at heq
      rcases List.mem_cons.mp hmem2 with heq | hmem3
      · simp at heq
      · have := (hnof _ hmem3).2
        simp [Event.isWaitFences] at this
    · intro hw
      rw [hw] at h1
      simp at h1
    · intro ws ss cbs f ok hmem
      rcases List.mem_cons.mp hmem with heq | hmem2
      · exact absurd heq (by simp)
      rcases List.mem_cons.mp hmem2 with heq | hmem3
      · exact absurd heq (by simp)
      · exact hqs ws ss cbs f ok hmem3
    · intro h _ _
      exact hood h
    · intro h _ _
      exact hsl h
    · intro h hne _ _
      exact hother h hne
    · intro h hle _ _
      exact hrange h hle
    · intro _ _ hs hlt himg hb hbar he hq hsurf hrt
      exact hall hs hlt himg hb hbar he hq hsurf hrt

/-- Everything the claims need to know about one `Submit` run. -/
def SubmitSpec (sc : VulkanSwapchain) (env : SubmitEnv)
    (o : SubmitOut) : Prop :=
  o.state.current_backbuffer_index_ = sc.current_backbuffer_index_ ∧
  o.state.current_image_index_ = sc.current_image_index_ ∧
  o.state.valid_ = sc.valid_ ∧
  o.state.backbuffers_ = sc.backbuffers_ ∧
  o.state.images_ = sc.images_ ∧
  o.state.surfaces_ = sc.surfaces_ ∧
  (sc.valid_ = false → o = ⟨sc, false, []⟩) ∧
  (∀ ws ss cbs f ok, Event.queueSubmit ws ss cbs f ok ∈ o.trace →
    ws = [] ∧ ss = [⟨sc.current_backbuffer_index_, .render⟩] ∧
    cbs = [⟨sc.current_backbuffer_index_, .render⟩] ∧
    f = ⟨sc.current_backbuffer_index_, .render⟩) ∧
  (∀ ws idxs r, Event.queuePresent ws idxs r ∈ o.trace →
    ws = [⟨sc.current_backbuffer_index_, .render⟩] ∧
    idxs = [sc.current_image_index_] ∧ r = env.present_result) ∧
  (env.present_result ≠ VK_SUCCESS → o.ok = false) ∧
  o.trace.countP Event.isQueuePresent ≤ 1 ∧
  (sc.valid_ = true → env.get_rt_handle_ok = true → env.begin_ok = true →
    env.barrier_ok = true → env.end_ok = true →
    env.queue_submit_ok = true → env.present_result = VK_SUCCESS →
    o.ok = true)

set_option maxHeartbeats 1600000 in
/-- Master lemma for `Submit`. -/
theorem Submit_spec (sc : VulkanSwapchain) (env : SubmitEnv) :
    SubmitSpec sc env (Submit sc env) := by
  unfold Submit
  split_ifs <;>
    simp_all [SubmitSpec, Event.isQueuePresent, List.countP_cons,
      List.countP_nil]

/-- `createImagesLoop` never touches the scalar fields of the state. -/
theorem createImagesLoop_preserves (imgs : List ImageEnv) :
    ∀ sc : VulkanSwapchain,
      (createImagesLoop imgs sc).2.valid_ = sc.valid_ ∧
      (createImagesLoop imgs sc).2.current_image_index_ =
        sc.current_image_index_ ∧
      (createImagesLoop imgs sc).2.current_backbuffer_index_ =
        sc.current_backbuffer_index_ := by
  induction imgs with
  | nil =>
    intro sc
    simp [createImagesLoop]
  | cons e rest ih =>
    intro sc
    unfold createImagesLoop
    split_ifs
    · simp
    · simp
    · simp
    · simpa using ih _

/-- On success, `createImagesLoop` appends exactly one backbuffer, one image
and one surface per input image. -/
theorem createImagesLoop_lengths (imgs : List ImageEnv) :
    ∀ sc : VulkanSwapchain, (createImagesLoop imgs sc).1 = true →
      (createImagesLoop imgs sc).2.backbuffers_.length =
        sc.backbuffers_.length + imgs.length ∧
      (createImagesLoop imgs sc).2.images_.length =
        sc.images_.length + imgs.length ∧
      (createImagesLoop imgs sc).2.surfaces_.length =
        sc.surfaces_.length + imgs.length := by
  induction imgs with
  | nil =>
    intro sc _
    simp [createImagesLoop]
  | cons e rest ih =>
    intro sc h
    unfold createImagesLoop at h ⊢
    split_ifs at h ⊢
    all_goals
      first
        | simp at h
        | (have hr := ih _ h
           simp only [List.length_append, List.length_cons, List.length_nil]
             at hr ⊢
           omega)

/-- When every per-image wrap step succeeds, the loop succeeds. -/
theorem createImagesLoop_ok (imgs : List ImageEnv) :
    ∀ sc : VulkanSwapchain,
      (∀ e ∈ imgs, e.backbuffer_ok = true ∧ e.image_ok = true ∧
        e.surface_ok = true) →
      (createImagesLoop imgs sc).1 = true := by
  induction imgs with
  | nil =>
    intro sc _
    simp [createImagesLoop]
  | cons e rest ih =>
    intro sc hall
    have he := hall e (by simp)
    unfold createImagesLoop
    split_ifs with hb hi hs
    · simp_all
    · simp_all
    · simp_all
    · exact ih _ fun x hx => hall x (List.mem_cons_of_mem _ hx)

/-- Everything the claims need to know about `CreateSwapchainImages`. -/
def CreateImagesSpec (sc : VulkanSwapchain) (imgs : List ImageEnv)
    (o : Bool × VulkanSwapchain) : Prop :=
  o.2.valid_ = sc.valid_ ∧
  o.2.current_image_index_ = sc.current_image_index_ ∧
  o.2.current_backbuffer_index_ = sc.current_backbuffer_index_ ∧
  (o.1 = true →
    o.2.backbuffers_.length = sc.backbuffers_.length + imgs.length ∧
    o.2.images_.length = sc.images_.length + imgs.length ∧
    o.2.surfaces_.length = sc.surfaces_.length + imgs.length ∧
    1 ≤ imgs.length) ∧
  (imgs.length = 0 → o.1 = false) ∧
  ((∀ e ∈ imgs, e.backbuffer_ok = true ∧ e.image_ok = true ∧
      e.surface_ok = true) → imgs ≠ [] → o.1 = true)

/-- Master lemma for `CreateSwapchainImages`. -/
theorem CreateSwapchainImages_spec (sc : VulkanSwapchain)
    (imgs : List ImageEnv) :
    CreateImagesSpec sc imgs (CreateSwapchainImages sc imgs) := by
  unfold CreateSwapchainImages
  split_ifs with h0
  · refine ⟨rfl, rfl, rfl, ?_, fun _ => rfl, ?_⟩
    · intro h
      simp at h
    · intro _ hne
      exact absurd (List.length_eq_zero.mp h0) hne
  · obtain ⟨hp1, hp2, hp3⟩ := createImagesLoop_preserves imgs sc
    refine ⟨hp1, hp2, hp3, ?_, fun hz => absurd hz h0, ?_⟩
    · intro h
      have hl := createImagesLoop_lengths imgs sc h
      exact ⟨hl.1, hl.2.1, hl.2.2, by omega⟩
    · intro hall _
      exact createImagesLoop_ok imgs sc hall

/-- `ChoosePresentMode` always reports success. -/
theorem ChoosePresentMode_fst (offered : List VkPresentModeKHR) :
    (ChoosePresentMode offered).1 = true := by
  cases offered <;> rfl

/-- Everything the claims need to know about the constructor. -/
def CtorSpec (env : CtorEnv) (o : CtorOut) : Prop :=
  o.state.current_image_index_ = 0 ∧
  o.state.current_backbuffer_index_ = 0 ∧
  (o.state.valid_ = true →
    o.state.backbuffers_.length = env.images.length ∧
    o.state.images_.length = env.images.length ∧
    o.state.surfaces_.length = env.images.length ∧
    1 ≤ env.images.length) ∧
  (env.images.length = 0 → o.state.valid_ = false) ∧
  (env.device_ok = true → env.surface_ok = true →
    env.skia_context_nonnull = true →
    env.get_surface_capabilities_ok = true →
    env.choose_surface_format_ok = true →
    env.surface_support_result = VK_SUCCESS →
    env.surface_supported = true →
    env.create_swapchain_result = VK_SUCCESS →
    env.images ≠ [] →
    (∀ e ∈ env.images, e.backbuffer_ok = true ∧ e.image_ok = true ∧
      e.surface_ok = true) →
    o.state.valid_ = true ∧
    o.create_info_present_mode =
      some (ChoosePresentMode env.present_modes_offered).2)

set_option maxHeartbeats 1600000 in
/-- Master lemma for the constructor. -/
theorem mkVulkanSwapchain_spec (env : CtorEnv) :
    CtorSpec env (mkVulkanSwapchain env) := by
  have hci := CreateSwapchainImages_spec initialSwapchain env.images
  obtain ⟨hv, hidx, hcbi, hlen, hzero, hok⟩ := hci
  unfold mkVulkanSwapchain
  split_ifs with h1 h2 h3 h4 h5 h6 h7 h8
  · exact ⟨rfl, rfl, fun h => absurd h (by simp [initialSwapchain]),
      fun _ => rfl, fun hd hs hk _ _ _ _ _ _ _ => by simp_all⟩
  · exact ⟨rfl, rfl, fun h => absurd h (by simp [initialSwapchain]),
      fun _ => rfl, fun _ _ _ hc _ _ _ _ _ _ => by simp_all⟩
  · exact ⟨rfl, rfl, fun h => absurd h (by simp [initialSwapchain]),
      fun _ => rfl, fun _ _ _ _ hf _ _ _ _ _ => by simp_all⟩
  · rw [ChoosePresentMode_fst] at h4
    simp at h4
  · exact ⟨rfl, rfl, fun h => absurd h (by simp [initialSwapchain]),
      fun _ => rfl, fun _ _ _ _ _ hr _ _ _ _ => by simp_all⟩
  · exact ⟨rfl, rfl, fun h => absurd h (by simp [initialSwapchain]),
      fun _ => rfl, fun _ _ _ _ _ _ hsup _ _ _ => by simp_all⟩
  · exact ⟨rfl, rfl, fun h => absurd h (by simp [initialSwapchain]),
      fun _ => rfl, fun _ _ _ _ _ _ _ hcr _ _ => by simp_all⟩
  · -- CreateSwapchainImages failed: the chain stays invalid
    have hvf : (CreateSwapchainImages initialSwapchain env.images).2.valid_ =
        false := by
      rw [hv]
      rfl
    refine ⟨by rw [hidx]; rfl, by rw [hcbi]; rfl, ?_, fun _ => hvf, ?_⟩
    · intro h
      rw [hvf] at h
      exact absurd h (by simp)
    · intro _ _ _ _ _ _ _ _ hne hall
      exact absurd (hok hall hne) (by simp_all)
  · -- success: valid chain
    have hl := hlen (by simp_all)
    refine ⟨by rw [hidx]; rfl, by rw [hcbi]; rfl, ?_, ?_, ?_⟩
    · intro _
      refine ⟨?_, ?_, ?_, hl.2.2.2⟩
      · rw [hl.1]
        simp [initialSwapchain]
      · rw [hl.2.1]
        simp [initialSwapchain]
      · rw [hl.2.2.1]
        simp [initialSwapchain]
    · intro hz
      exact absurd (hzero hz) (by simp_all)
    · intro _ _ _ _ _ _ _ _ _ _
      exact ⟨rfl, rfl⟩

/-! ## Healthy chains and frame cycles -/

/-- Every external call of one acquire succeeds and the platform reports
`VK_SUCCESS`. -/
def AcquireAllOk (env : AcquireEnv) : Prop :=
  env.wait_fences_ok = true ∧ env.reset_fences_ok = true ∧
  env.acquire_result = VK_SUCCESS ∧ env.begin_ok = true ∧
  env.barrier_ok = true ∧ env.end_ok = true ∧
  env.queue_submit_ok = true ∧ env.get_rt_handle_ok = true

/-- The chain is valid, its ring is nonempty and fully valid, and the image
index the platform will hand back is in range with a valid image and a
non-null stored surface. -/
def Healthy (sc : VulkanSwapchain) (env : AcquireEnv) : Prop :=
  sc.valid_ = true ∧ 0 < sc.backbuffers_.length ∧
  (∀ b ∈ sc.backbuffers_, b.ok = true) ∧
  env.next_image_index < sc.images_.length ∧
  (sc.images_.getD env.next_image_index ⟨false⟩).ok = true ∧
  sc.surfaces_.getD env.next_image_index false = true

/-- In a ring of valid backbuffers, the selected slot is valid. -/
theorem healthy_next_ok (sc : VulkanSwapchain)
    (hall : ∀ b ∈ sc.backbuffers_, b.ok = true)
    (hlen : 0 < sc.backbuffers_.length) :
    (sc.backbuffers_.getD (nextSlot sc) ⟨0, false⟩).ok = true := by
  have hlt : nextSlot sc < sc.backbuffers_.length := Nat.mod_lt _ hlen
  rw [List.getD_eq_getElem?_getD, List.getElem?_eq_getElem hlt]
  exact hall _ (List.getElem_mem hlt)

/-- On a valid chain whose selected backbuffer is valid, `AcquireSurface`
runs the per-slot protocol on `nextSlot sc`. -/
theorem AcquireSurface_eq_afterSlot (sc : VulkanSwapchain)
    (env : AcquireEnv) (hv : sc.valid_ = true)
    (hlen : 0 < sc.backbuffers_.length)
    (hok : (sc.backbuffers_.getD (nextSlot sc) ⟨0, false⟩).ok = true) :
    AcquireSurface sc env =
      acquireAfterSlot { sc with current_backbuffer_index_ := nextSlot sc }
        (nextSlot sc) env := by
  have h0 : ¬ sc.backbuffers_.length = 0 := by omega
  unfold nextSlot at hok ⊢
  rw [List.getD_eq_getElem?_getD] at hok
  unfold AcquireSurface GetNextBackbuffer
  simp [hv, h0, hok]

/-- A healthy acquire succeeds, advances the ring counter to `nextSlot`, and
leaves the validity bit and all three vectors unchanged. -/
theorem AcquireSurface_healthy_success (sc : VulkanSwapchain)
    (env : AcquireEnv) (hh : Healthy sc env) (ha : AcquireAllOk env) :
    (AcquireSurface sc env).result.status = .Success ∧
    (AcquireSurface sc env).state.current_backbuffer_index_ = nextSlot sc ∧
    (AcquireSurface sc env).state.valid_ = sc.valid_ ∧
    (AcquireSurface sc env).state.backbuffers_ = sc.backbuffers_ ∧
    (AcquireSurface sc env).state.images_ = sc.images_ ∧
    (AcquireSurface sc env).state.surfaces_ = sc.surfaces_ := by
  obtain ⟨hv, hlen, hball, hlt, himg, hsurf⟩ := hh
  obtain ⟨hw, hr, hres, hb, hbar, he, hq, hrt⟩ := ha
  rw [AcquireSurface_eq_afterSlot sc env hv hlen
    (healthy_next_ok sc hball hlen)]
  obtain ⟨c1, c2, c3, c4, c5, _, _, _, _, _, _, _, _, _, _, hall⟩ :=
    acquireAfterSlot_spec
      { sc with current_backbuffer_index_ := nextSlot sc } (nextSlot sc) env
  exact ⟨hall hw hr hres hlt himg hb hbar he hq hsurf hrt,
    c1, c2, c3, c4, c5⟩

/-- One frame as the caller drives it: `AcquireSurface` then `Submit`. -/
def frameCycle (aenv : AcquireEnv) (senv : SubmitEnv)
    (sc : VulkanSwapchain) : VulkanSwapchain :=
  (Submit (AcquireSurface sc aenv).state senv).state

/-- `i` consecutive Acquire/Submit frames. -/
def runCycles (aenv : AcquireEnv) (senv : SubmitEnv) :
    Nat → VulkanSwapchain → VulkanSwapchain
  | 0, sc => sc
  | n + 1, sc => runCycles aenv senv n (frameCycle aenv senv sc)

/-- The backbuffer slot frame `i` uses: the ring index right after the
acquire of frame `i` (0-based). -/
def frameSlot (aenv : AcquireEnv) (senv : SubmitEnv)
    (sc : VulkanSwapchain) (i : Nat) : Nat :=
  (AcquireSurface (runCycles aenv senv i sc)
    aenv).state.current_backbuffer_index_

/-- A healthy frame advances the ring counter by exactly one and keeps the
chain healthy, whatever the `Submit` environment does. -/
theorem frameCycle_facts (sc : VulkanSwapchain) (aenv : AcquireEnv)
    (senv : SubmitEnv) (hh : Healthy sc aenv) (ha : AcquireAllOk aenv) :
    Healthy (frameCycle aenv senv sc) aenv ∧
    (frameCycle aenv senv sc).backbuffers_ = sc.backbuffers_ ∧
    (frameCycle aenv senv sc).current_backbuffer_index_ =
      (sc.current_backbuffer_index_ + 1) % sc.backbuffers_.length := by
  obtain ⟨hst, hcb, hvp, hbp, hip, hsp⟩ :=
    AcquireSurface_healthy_success sc aenv hh ha
  obtain ⟨s1, s2, s3, s4, s5, s6, _⟩ :=
    Submit_spec (AcquireSurface sc aenv).state senv
  obtain ⟨hv, hlen, hball, hlt, himg, hsurf⟩ := hh
  unfold frameCycle
  refine ⟨⟨?_, ?_, ?_, ?_, ?_, ?_⟩, ?_, ?_⟩
  · rw [s3, hvp, hv]
  · rw [s4, hbp]
    exact hlen
  · rw [s4, hbp]
    exact hball
  · rw [s5, hip]
    exact hlt
  · rw [s5, hip]
    exact himg
  · rw [s6, hsp]
    exact hsurf
  · rw [s4, hbp]
  · rw [s1, hcb]
    rfl

/-- Closed form for the slot of frame `i` on a healthy chain. -/
theorem frameSlot_formula (aenv : AcquireEnv) (senv : SubmitEnv) :
    ∀ (i : Nat) (sc : VulkanSwapchain),
      Healthy sc aenv → AcquireAllOk aenv →
      frameSlot aenv senv sc i =
        (sc.current_backbuffer_index_ + i + 1) % sc.backbuffers_.length := by
  intro i
  induction i with
  | zero =>
    intro sc hh ha
    unfold frameSlot runCycles
    rw [(AcquireSurface_healthy_success sc aenv hh ha).2.1]
    rfl
  | succ n ih =>
    intro sc hh ha
    obtain ⟨hhn, hbb, hcb⟩ := frameCycle_facts sc aenv senv hh ha
    have hstep : frameSlot aenv senv sc (n + 1) =
        frameSlot aenv senv (frameCycle aenv senv sc) n := rfl
    rw [hstep, ih (frameCycle aenv senv sc) hhn ha, hbb, hcb,
      Nat.add_assoc, Nat.mod_add_mod]
    congr 1
    omega

/-! ## Concrete fixtures used by the witnesses -/

/-- A healthy two-slot chain. -/
def chainW : VulkanSwapchain :=
  { current_pipeline_stage_ := .topOfPipe,
    current_backbuffer_index_ := 0,
    current_image_index_ := 0,
    valid_ := true,
    backbuffers_ := [⟨0, true⟩, ⟨1, true⟩],
    images_ := [⟨true⟩, ⟨true⟩],
    surfaces_ := [true, true] }

/-- An all-success acquire environment returning image index 1. -/
def acqOkW : AcquireEnv :=
  { wait_fences_ok := true, reset_fences_ok := true, acquire_result := 0,
    next_image_index := 1, begin_ok := true, barrier_ok := true,
    end_ok := true, queue_submit_ok := true, get_rt_handle_ok := true }

/-- An acquire environment whose `WaitFences` call fails. -/
def acqWaitFailW : AcquireEnv :=
  { acqOkW with wait_fences_ok := false }

/-- An acquire environment where the platform reports
`VK_ERROR_OUT_OF_DATE_KHR`. -/
def acqOutOfDateW : AcquireEnv :=
  { acqOkW with acquire_result := VK_ERROR_OUT_OF_DATE_KHR }

/-- An all-success submit environment. -/
def subOkW : SubmitEnv :=
  { get_rt_handle_ok := true, begin_ok := true, barrier_ok := true,
    end_ok := true, queue_submit_ok := true, present_result := 0 }

/-- A submit environment whose present call fails
(`VK_ERROR_DEVICE_LOST`). -/
def subPresentFailW : SubmitEnv :=
  { subOkW with present_result := -4 }

/-- A constructor environment where every step succeeds, the device offers
no present mode, and the platform reports three images. -/
def ctorOkW : CtorEnv :=
  { device_ok := true, surface_ok := true, skia_context_nonnull := true,
    get_surface_capabilities_ok := true, choose_surface_format_ok := true,
    present_modes_offered := [], surface_support_result := 0,
    surface_supported := true, create_swapchain_result := 0,
    images := [⟨true, true, true⟩, ⟨true, true, true⟩,
      ⟨true, true, true⟩] }

/-- Like `ctorOkW`, but the platform reports zero images. -/
def ctorZeroW : CtorEnv :=
  { ctorOkW with images := [] }

/-- An invalid chain, as a failed negotiation leaves it. -/
def invalidChainW : VulkanSwapchain := initialSwapchain

/-! ## Claims -/

/-- C1: in every `AcquireSurface` call, a `ResetFences` call on a slot can
only occur as the call immediately following a successful `WaitFences` on
that same slot; and if `WaitFences` fails, the call returns
`ErrorSurfaceLost` with no surface and `ResetFences` is never reached. -/
theorem acquire_reset_only_after_wait (sc : VulkanSwapchain)
    (env : AcquireEnv) (s : Nat) (ok : Bool) :
    (Event.resetFences s ok ∈ (AcquireSurface sc env).trace →
      ∃ rest, (AcquireSurface sc env).trace =
        Event.waitFences s true :: Event.resetFences s ok :: rest) ∧
    (Event.waitFences s false ∈ (AcquireSurface sc env).trace →
      (AcquireSurface sc env).result = acquireError ∧
      ∀ t ok2,
        Event.resetFences t ok2 ∉ (AcquireSurface sc env).trace) := by
  rcases AcquireSurface_cases sc env with h | h <;> rw [h]
  · exact ⟨fun hm => absurd hm (by simp), fun hm => absurd hm (by simp)⟩
  · obtain ⟨_, _, _, _, _, _, _, c8, c9, _, _, _, _, _, _, _⟩ :=
      acquireAfterSlot_spec
        { sc with current_backbuffer_index_ := nextSlot sc }
        (nextSlot sc) env
    exact ⟨c8 s ok, c9 s⟩

/-- Witness for C1: a run where the reset follows the successful wait, and a
run with a failing `WaitFences` that never resets. -/
theorem acquire_reset_only_after_wait_witness :
    (∃ rest, (AcquireSurface chainW acqOkW).trace =
      Event.waitFences 1 true :: Event.resetFences 1 true :: rest) ∧
    ((AcquireSurface chainW acqWaitFailW).result = acquireError ∧
      ∀ t ok2, Event.resetFences t ok2 ∉
        (AcquireSurface chainW acqWaitFailW).trace) :=
  ⟨(acquire_reset_only_after_wait chainW acqOkW 1 true).1 (by decide),
   (acquire_reset_only_after_wait chainW acqWaitFailW 1 false).2
     (by decide)⟩

/-- C2: on a healthy chain a successful acquire advances the backbuffer slot
ring counter by exactly one modulo the ring size; `Submit` never advances
it (so it operates on the slot the preceding acquire selected); hence over
consecutive Acquire/Submit cycles the slot of frame `i + ring_size` equals
the slot of frame `i`. -/
theorem acquire_slot_ring_discipline (sc : VulkanSwapchain)
    (aenv : AcquireEnv) (hh : Healthy sc aenv) (ha : AcquireAllOk aenv) :
    ((AcquireSurface sc aenv).result.status = .Success ∧
      (AcquireSurface sc aenv).state.current_backbuffer_index_ =
        (sc.current_backbuffer_index_ + 1) % sc.backbuffers_.length) ∧
    (∀ (sc2 : VulkanSwapchain) (senv : SubmitEnv),
      (Submit sc2 senv).state.current_backbuffer_index_ =
        sc2.current_backbuffer_index_) ∧
    (∀ (senv : SubmitEnv) (i : Nat),
      frameSlot aenv senv sc (i + sc.backbuffers_.length) =
        frameSlot aenv senv sc i) := by
  have hs := AcquireSurface_healthy_success sc aenv hh ha
  refine ⟨⟨hs.1, hs.2.1⟩, fun sc2 senv => (Submit_spec sc2 senv).1, ?_⟩
  intro senv i
  rw [frameSlot_formula aenv senv (i + sc.backbuffers_.length) sc hh ha,
    frameSlot_formula aenv senv i sc hh ha]
  have harith : sc.current_backbuffer_index_ +
      (i + sc.backbuffers_.length) + 1 =
      sc.current_backbuffer_index_ + i + 1 + sc.backbuffers_.length := by
    omega
  rw [harith, Nat.add_mod_right]

/-- Witness for C2 on the concrete two-slot chain. -/
theorem acquire_slot_ring_discipline_witness :
    ((AcquireSurface chainW acqOkW).result.status = .Success ∧
      (AcquireSurface chainW acqOkW).state.current_backbuffer_index_ =
        (chainW.current_backbuffer_index_ + 1) %
          chainW.backbuffers_.length) ∧
    (∀ (sc2 : VulkanSwapchain) (senv : SubmitEnv),
      (Submit sc2 senv).state.current_backbuffer_index_ =
        sc2.current_backbuffer_index_) ∧
    (∀ (senv : SubmitEnv) (i : Nat),
      frameSlot acqOkW senv chainW (i + chainW.backbuffers_.length) =
        frameSlot acqOkW senv chainW i) :=
  acquire_slot_ring_discipline chainW acqOkW
    (by unfold Healthy; decide) (by unfold AcquireAllOk; decide)

/-- C3: whenever negotiation marks the chain valid, the backbuffer, image
and surface vectors all have the platform-reported image count as length,
and that count is at least 1; zero platform images leave the chain
invalid. -/
theorem negotiation_sizes_match_image_count (env : CtorEnv) :
    ((mkVulkanSwapchain env).state.valid_ = true →
      (mkVulkanSwapchain env).state.backbuffers_.length =
        env.images.length ∧
      (mkVulkanSwapchain env).state.images_.length = env.images.length ∧
      (mkVulkanSwapchain env).state.surfaces_.length = env.images.length ∧
      1 ≤ env.images.length) ∧
    (env.images.length = 0 →
      (mkVulkanSwapchain env).state.valid_ = false) := by
  have h := mkVulkanSwapchain_spec env
  exact ⟨h.2.2.1, h.2.2.2.1⟩

/-- Witness for C3: a three-image negotiation and a zero-image one. -/
theorem negotiation_sizes_match_image_count_witness :
    ((mkVulkanSwapchain ctorOkW).state.backbuffers_.length =
        ctorOkW.images.length ∧
      (mkVulkanSwapchain ctorOkW).state.images_.length =
        ctorOkW.images.length ∧
      (mkVulkanSwapchain ctorOkW).state.surfaces_.length =
        ctorOkW.images.length ∧
      1 ≤ ctorOkW.images.length) ∧
    (mkVulkanSwapchain ctorZeroW).state.valid_ = false :=
  ⟨(negotiation_sizes_match_image_count ctorOkW).1 (by decide),
   (negotiation_sizes_match_image_count ctorZeroW).2 (by decide)⟩

/-- C4: the acquire-side queue submission waits on exactly the selected
slot's usage semaphore, signals no semaphores, and signals the selected
slot's usage fence. -/
theorem acquire_queue_submit_arguments (sc : VulkanSwapchain)
    (env : AcquireEnv) (ws ss : List VkSemaphore)
    (cbs : List VkCommandBuffer) (f : VkFence) (ok : Bool)
    (h : Event.queueSubmit ws ss cbs f ok ∈ (AcquireSurface sc env).trace) :
    ws = [⟨nextSlot sc, .usage⟩] ∧ ss = [] ∧
    f = ⟨nextSlot sc, .usage⟩ := by
  rcases AcquireSurface_cases sc env with hc | hc <;> rw [hc] at h
  · simp at h
  · obtain ⟨_, _, _, _, _, _, _, _, _, _, c11, _, _, _, _, _⟩ :=
      acquireAfterSlot_spec
        { sc with current_backbuffer_index_ := nextSlot sc }
        (nextSlot sc) env
    have hq := c11 ws ss cbs f ok h
    exact ⟨hq.1, hq.2.1, hq.2.2.2⟩

/-- Witness for C4 on the concrete chain (selected slot 1). -/
theorem acquire_queue_submit_arguments_witness :
    ([(⟨1, SyncKind.usage⟩ : VkSemaphore)] =
      [⟨nextSlot chainW, SyncKind.usage⟩]) ∧
    (([] : List VkSemaphore) = []) ∧
    ((⟨1, SyncKind.usage⟩ : VkFence) =
      ⟨nextSlot chainW, SyncKind.usage⟩) :=
  acquire_queue_submit_arguments chainW acqOkW
    [⟨1, .usage⟩] [] [⟨1, .usage⟩] ⟨1, .usage⟩ true (by decide)

/-- C5: `Submit`'s queue submission waits on no semaphores and signals
exactly the slot's render semaphore and render fence; the present request
waits on that render semaphore and presents exactly the one current image
index; a non-success present status makes `Submit` return false, and at
most one present request is ever issued per call (no retry). -/
theorem submit_queue_and_present_protocol (sc : VulkanSwapchain)
    (env : SubmitEnv) :
    (∀ ws ss cbs f ok,
      Event.queueSubmit ws ss cbs f ok ∈ (Submit sc env).trace →
      ws = [] ∧ ss = [⟨sc.current_backbuffer_index_, .render⟩] ∧
      f = ⟨sc.current_backbuffer_index_, .render⟩) ∧
    (∀ ws idxs r,
      Event.queuePresent ws idxs r ∈ (Submit sc env).trace →
      ws = [⟨sc.current_backbuffer_index_, .render⟩] ∧
      idxs = [sc.current_image_index_]) ∧
    (env.present_result ≠ VK_SUCCESS → (Submit sc env).ok = false) ∧
    (Submit sc env).trace.countP Event.isQueuePresent ≤ 1 := by
  obtain ⟨_, _, _, _, _, _, _, c8, c9, c10, c11, _⟩ := Submit_spec sc env
  refine ⟨?_, ?_, c10, c11⟩
  · intro ws ss cbs f ok h
    have hq := c8 ws ss cbs f ok h
    exact ⟨hq.1, hq.2.1, hq.2.2.2⟩
  · intro ws idxs r h
    have hp := c9 ws idxs r h
    exact ⟨hp.1, hp.2.1⟩

/-- Witness for C5: a failing present on the concrete chain. -/
theorem submit_queue_and_present_protocol_witness :
    (([] : List VkSemaphore) = [] ∧
      [(⟨0, SyncKind.render⟩ : VkSemaphore)] =
        [⟨chainW.current_backbuffer_index_, SyncKind.render⟩] ∧
      (⟨0, SyncKind.render⟩ : VkFence) =
        ⟨chainW.current_backbuffer_index_, SyncKind.render⟩) ∧
    ([(⟨0, SyncKind.render⟩ : VkSemaphore)] =
        [⟨chainW.current_backbuffer_index_, SyncKind.render⟩] ∧
      [0] = [chainW.current_image_index_]) ∧
    (Submit chainW subPresentFailW).ok = false :=
  ⟨(submit_queue_and_present_protocol chainW subPresentFailW).1
      [] [⟨0, .render⟩] [⟨0, .render⟩] ⟨0, .render⟩ true (by decide),
   (submit_queue_and_present_protocol chainW subPresentFailW).2.1
      [⟨0, .render⟩] [0] (-4) (by decide),
   (submit_queue_and_present_protocol chainW subPresentFailW).2.2.1
      (by decide)⟩

/-- C6: once the protocol reaches the platform acquire call, the status is
mapped exactly as the source's switch does: configuration-changed yields
`ErrorSurfaceOutOfDate`, surface loss yields `ErrorSurfaceLost`, any other
non-success status yields `ErrorSurfaceLost`, and an out-of-range returned
image index also yields `ErrorSurfaceLost`. -/
theorem acquire_status_mapping (sc : VulkanSwapchain) (env : AcquireEnv)
    (hv : sc.valid_ = true) (hlen : 0 < sc.backbuffers_.length)
    (hok : (sc.backbuffers_.getD (nextSlot sc) ⟨0, false⟩).ok = true)
    (hw : env.wait_fences_ok = true) (hr : env.reset_fences_ok = true) :
    (env.acquire_result = VK_ERROR_OUT_OF_DATE_KHR →
      (AcquireSurface sc env).result = ⟨.ErrorSurfaceOutOfDate, none⟩) ∧
    (env.acquire_result = VK_ERROR_SURFACE_LOST_KHR →
      (AcquireSurface sc env).result = ⟨.ErrorSurfaceLost, none⟩) ∧
    (env.acquire_result ≠ VK_SUCCESS →
      env.acquire_result ≠ VK_ERROR_OUT_OF_DATE_KHR →
      (AcquireSurface sc env).result = ⟨.ErrorSurfaceLost, none⟩) ∧
    (env.acquire_result = VK_SUCCESS →
      sc.images_.length ≤ env.next_image_index →
      (AcquireSurface sc env).result = acquireError) := by
  rw [AcquireSurface_eq_afterSlot sc env hv hlen hok]
  obtain ⟨_, _, _, _, _, _, _, _, _, _, _, c12, c13, c14, c15, _⟩ :=
    acquireAfterSlot_spec
      { sc with current_backbuffer_index_ := nextSlot sc }
      (nextSlot sc) env
  exact ⟨fun h => c12 h hw hr, fun h => c13 h hw hr,
    fun h h2 => c14 h h2 hw hr, fun h h2 => c15 h h2 hw hr⟩

/-- Witness for C6: the out-of-date mapping on the concrete chain. -/
theorem acquire_status_mapping_witness :
    (AcquireSurface chainW acqOutOfDateW).result =
      ⟨.ErrorSurfaceOutOfDate, none⟩ :=
  (acquire_status_mapping chainW acqOutOfDateW (by decide) (by decide)
    (by decide) (by decide) (by decide)).1 (by decide)

/-- C7: `AcquireSurface` on an invalid chain returns `ErrorSurfaceLost`
with no render target, issues no external calls, and leaves the entire
state (indices, ring, vectors) untouched. -/
theorem invalid_chain_acquire_is_inert (sc : VulkanSwapchain)
    (env : AcquireEnv) (h : sc.valid_ = false) :
    AcquireSurface sc env = ⟨sc, acquireError, []⟩ := by
  unfold AcquireSurface
  simp [h]

/-- Witness for C7 on the concrete invalid chain. -/
theorem invalid_chain_acquire_is_inert_witness :
    AcquireSurface invalidChainW acqOkW =
      ⟨invalidChainW, acquireError, []⟩ :=
  invalid_chain_acquire_is_inert invalidChainW acqOkW (by decide)

/-- C8: when the device offers no alternative present mode, negotiation
still creates the chain, passing the blocking FIFO present mode in the
swapchain create info (the present-mode step does not fail). -/
theorem fifo_default_present_mode (env : CtorEnv)
    (hd : env.device_ok = true) (hs : env.surface_ok = true)
    (hk : env.skia_context_nonnull = true)
    (hc : env.get_surface_capabilities_ok = true)
    (hf : env.choose_surface_format_ok = true)
    (hm : env.present_modes_offered = [])
    (hr : env.surface_support_result = VK_SUCCESS)
    (hsup : env.surface_supported = true)
    (hcr : env.create_swapchain_result = VK_SUCCESS)
    (hne : env.images ≠ [])
    (hall : ∀ e ∈ env.images, e.backbuffer_ok = true ∧
      e.image_ok = true ∧ e.surface_ok = true) :
    (mkVulkanSwapchain env).state.valid_ = true ∧
    (mkVulkanSwapchain env).create_info_present_mode =
      some VK_PRESENT_MODE_FIFO_KHR := by
  have h := (mkVulkanSwapchain_spec env).2.2.2.2 hd hs hk hc hf hr hsup
    hcr hne hall
  refine ⟨h.1, ?_⟩
  rw [h.2, hm]
  rfl

/-- Witness for C8: the concrete no-modes-offered negotiation. -/
theorem fifo_default_present_mode_witness :
    (mkVulkanSwapchain ctorOkW).state.valid_ = true ∧
    (mkVulkanSwapchain ctorOkW).create_info_present_mode =
      some VK_PRESENT_MODE_FIFO_KHR :=
  fifo_default_present_mode ctorOkW (by decide) (by decide) (by decide)
    (by decide) (by decide) (by decide) (by decide) (by decide)
    (by decide) (by decide) (by decide)

/-- On a valid chain the current image index is within `images_`. -/
def SafeImageIndex (sc : VulkanSwapchain) : Prop :=
  sc.valid_ = true → sc.current_image_index_ < sc.images_.length

/-- C9: `current_image_index_ < images_.size()` holds on every valid chain
after construction and is preserved by every `AcquireSurface` and `Submit`
call, making `Submit`'s unchecked vector accesses in-bounds. -/
theorem current_image_index_in_bounds :
    (∀ env : CtorEnv, SafeImageIndex (mkVulkanSwapchain env).state) ∧
    (∀ (sc : VulkanSwapchain) (env : AcquireEnv),
      SafeImageIndex sc → SafeImageIndex (AcquireSurface sc env).state) ∧
    (∀ (sc : VulkanSwapchain) (env : SubmitEnv),
      SafeImageIndex sc → SafeImageIndex (Submit sc env).state) := by
  refine ⟨?_, ?_, ?_⟩
  · intro env
    obtain ⟨h1, _, h3, _, _⟩ := mkVulkanSwapchain_spec env
    intro hv
    rw [h1]
    have h4 := (h3 hv).2.1
    have h5 := (h3 hv).2.2.2
    omega
  · intro sc env hsafe
    rcases AcquireSurface_cases sc env with hc | hc <;> rw [hc]
    · exact hsafe
    · obtain ⟨_, c2, _, c4, _, c6, c7, _⟩ :=
        acquireAfterSlot_spec
          { sc with current_backbuffer_index_ := nextSlot sc }
          (nextSlot sc) env
      intro hv
      rw [c4]
      by_cases hst :
          (acquireAfterSlot
            { sc with current_backbuffer_index_ := nextSlot sc }
            (nextSlot sc) env).result.status = .Success
      · exact (c7 hst).1 ▸ (c7 hst).2
      · rw [c6 hst]
        exact hsafe (by rw [← c2]; exact hv)
  · intro sc env hsafe
    obtain ⟨_, s2, s3, _, s5, _⟩ := Submit_spec sc env
    intro hv
    rw [s2, s5]
    exact hsafe (by rw [← s3]; exact hv)

/-- Witness for C9: the invariant holds after a concrete acquire and a
concrete submit. -/
theorem current_image_index_in_bounds_witness :
    SafeImageIndex (AcquireSurface chainW acqOkW).state ∧
    SafeImageIndex (Submit chainW subOkW).state :=
  ⟨current_image_index_in_bounds.2.1 chainW acqOkW
      (by unfold SafeImageIndex; decide),
   current_image_index_in_bounds.2.2 chainW subOkW
      (by unfold SafeImageIndex; decide)⟩

/-- C10: every `AcquireSurface` call that does not return `Success` leaves
`current_image_index_` unchanged, so a `Submit` issued right after a failed
acquire still presents the image of the last successful acquire. -/
theorem failed_acquire_preserves_current_image (sc : VulkanSwapchain)
    (env : AcquireEnv)
    (h : (AcquireSurface sc env).result.status ≠ .Success) :
    (AcquireSurface sc env).state.current_image_index_ =
      sc.current_image_index_ ∧
    ∀ (senv : SubmitEnv) (ws : List VkSemaphore) (idxs : List Nat)
      (r : Int),
      Event.queuePresent ws idxs r ∈
        (Submit (AcquireSurface sc env).state senv).trace →
      idxs = [sc.current_image_index_] := by
  have hidx : (AcquireSurface sc env).state.current_image_index_ =
      sc.current_image_index_ := by
    rcases AcquireSurface_cases sc env with hc | hc
    · simp [hc]
    · rw [hc] at h ⊢
      obtain ⟨_, _, _, _, _, c6, _⟩ :=
        acquireAfterSlot_spec
          { sc with current_backbuffer_index_ := nextSlot sc }
          (nextSlot sc) env
      exact c6 h
  refine ⟨hidx, ?_⟩
  intro senv ws idxs r hm
  obtain ⟨_, _, _, _, _, _, _, _, c9, _⟩ :=
    Submit_spec (AcquireSurface sc env).state senv
  rw [(c9 ws idxs r hm).2.1, hidx]

/-- Witness for C10: a failed wait leaves the index targeting image 0. -/
theorem failed_acquire_preserves_current_image_witness :
    (AcquireSurface chainW acqWaitFailW).state.current_image_index_ =
      chainW.current_image_index_ ∧
    ∀ (senv : SubmitEnv) (ws : List VkSemaphore) (idxs : List Nat)
      (r : Int),
      Event.queuePresent ws idxs r ∈
        (Submit (AcquireSurface chainW acqWaitFailW).state senv).trace →
      idxs = [chainW.current_image_index_] :=
  failed_acquire_preserves_current_image chainW acqWaitFailW (by decide)

end Vulkan
